import Mathlib

/-
Verification development for the brett_ui widgets: a shallow embedding of
src/js/widgets/GoogleMap.js, src/js/widgets/ToggleButton.js and
src/js/http/HttpQueryStringBuilder.js, followed by theorems about the
embedded operations.  JS numbers appearing as coordinates, zoom levels and
page counters are modelled as integers; external-service mutations and host
callbacks are recorded as an ordered trace of effects.
-/

/-- Latitude/longitude pair (google.maps.LatLng). -/
structure LatLng where
  lat : Int
  lng : Int
deriving DecidableEq

/-- Model of google.maps.LatLngBounds as a closed rectangle. -/
structure LatLngBounds where
  south : Int
  west : Int
  north : Int
  east : Int
deriving DecidableEq

/-- Containment test of google.maps.LatLngBounds.contains. -/
def LatLngBounds.contains (b : LatLngBounds) (p : LatLng) : Bool :=
  decide (b.south ≤ p.lat) && decide (p.lat ≤ b.north) &&
  decide (b.west ≤ p.lng) && decide (p.lng ≤ b.east)

/-- Observable state of the external rendering surface (google.maps.Map).
The getBounds() readback is undefined until the map has been laid out,
hence an Option. -/
structure MapSurface where
  bounds : Option LatLngBounds
  zoom : Int
  center : LatLng
deriving DecidableEq

/-- Observable state of the user-location marker (google.maps.Marker):
whether setMap attached it to the map, and its position. -/
structure UserMarker where
  attached : Bool
  position : Option LatLng
deriving DecidableEq

/-- Observable state of the accuracy circle (google.maps.Circle). -/
structure MapCircle where
  visible : Bool
  center : Option LatLng
deriving DecidableEq

/-- Modelled from the spec: the Geolocator class is not under src/.  Per
spec section 4.1 it owns a cached last-accepted coordinate, cleared on
request start and queried by isCurrentPositionAvailable. -/
structure Geolocator where
  currentPosition : Option LatLng
deriving DecidableEq

/-- Modelled from the spec: reports whether a previously cached coordinate
exists. -/
def Geolocator.isCurrentPositionAvailable (g : Geolocator) : Bool :=
  g.currentPosition.isSome

/-- Modelled from the spec: clears the cached coordinate. -/
def Geolocator.clearCurrentPosition (g : Geolocator) : Geolocator :=
  { g with currentPosition := none }

/-- One observable action of the widget: a mutation of the rendering
surface, a geolocator mutation, or an invocation of a host-page callback. -/
inductive Effect where
  | panTo (p : LatLng)
  | setZoom (z : Int)
  | markerSetMap (attached : Bool)
  | markerSetAnimation
  | markerSetPosition (p : LatLng)
  | circleSetVisible (v : Bool)
  | circleSetCenter (p : LatLng)
  | geoClearCurrentPosition
  | callbackRequest
  | callbackPermissionTimeout (hasPosition : Bool)
  | callbackSuccess (lat lng : Int)
  | callbackError (msg : String)
deriving DecidableEq

/-- Effects that invoke a host-page callback. -/
def Effect.isCallback : Effect → Bool
  | .callbackRequest => true
  | .callbackPermissionTimeout _ => true
  | .callbackSuccess _ _ => true
  | .callbackError _ => true
  | _ => false

/-- Camera movements: pan or zoom. -/
def Effect.isPanZoom : Effect → Bool
  | .panTo _ => true
  | .setZoom _ => true
  | _ => false

/-- Effects that mutate the rendering surface (camera, marker or circle). -/
def Effect.isVisual : Effect → Bool
  | .panTo _ => true
  | .setZoom _ => true
  | .markerSetMap _ => true
  | .markerSetAnimation => true
  | .markerSetPosition _ => true
  | .circleSetVisible _ => true
  | .circleSetCenter _ => true
  | _ => false

/-- State of a GoogleMap widget instance.  The four Booleans record whether
the corresponding host-page callback is configured (the JS checks
isFunction before invoking them). -/
structure GoogleMap where
  map : Option MapSurface
  userMarker : Option UserMarker
  userLocationCircle : Option MapCircle
  geolocator : Geolocator
  hasRequestCallback : Bool
  hasPermissionTimeoutCallback : Bool
  hasSuccessCallback : Bool
  hasErrorCallback : Bool
deriving DecidableEq

/-- Prototype default focusedZoomLevel. -/
def GoogleMap.focusedZoomLevel : Int := 15

/-- Prototype default minFocusedZoomLevel. -/
def GoogleMap.minFocusedZoomLevel : Int := 5

/-- GoogleMap.prototype.removeUserPosition: detaches the user marker from
the map (setMap(null)) when the marker object exists. -/
def GoogleMap.removeUserPosition (s : GoogleMap) : GoogleMap × List Effect :=
  match s.userMarker with
  | none => (s, [])
  | some mrk =>
    ({ s with userMarker := some { mrk with attached := false } },
     [Effect.markerSetMap false])

/-- GoogleMap.prototype.setUserMarker: a no-op while the map is null;
otherwise lazily constructs the marker, attaches it, re-applies the drop
animation and sets its position. -/
def GoogleMap.setUserMarker (s : GoogleMap) (lat lng : Int) : GoogleMap × List Effect :=
  match s.map with
  | none => (s, [])
  | some _ =>
    let mk0 : UserMarker :=
      match s.userMarker with
      | none => { attached := false, position := none }
      | some mrk => mrk
    let mk1 : UserMarker := { mk0 with attached := true }
    let mk2 : UserMarker := { mk1 with position := some ⟨lat, lng⟩ }
    ({ s with userMarker := some mk2 },
     [Effect.markerSetMap true, Effect.markerSetAnimation,
      Effect.markerSetPosition ⟨lat, lng⟩])

/-- GoogleMap.prototype.setUserLocationCirclePosition: when the circle was
initialized, shows it if hidden and re-centers it. -/
def GoogleMap.setUserLocationCirclePosition (s : GoogleMap) (lat lng : Int) :
    GoogleMap × List Effect :=
  match s.userLocationCircle with
  | none => (s, [])
  | some c =>
    let (c1, t1) :=
      if !c.visible then ({ c with visible := true }, [Effect.circleSetVisible true])
      else (c, [])
    ({ s with userLocationCircle := some { c1 with center := some ⟨lat, lng⟩ } },
     t1 ++ [Effect.circleSetCenter ⟨lat, lng⟩])

/-- GoogleMap.prototype.hideUserLocationCircle: sets visibility false when
the circle exists and is currently visible. -/
def GoogleMap.hideUserLocationCircle (s : GoogleMap) : GoogleMap × List Effect :=
  match s.userLocationCircle with
  | none => (s, [])
  | some c =>
    if c.visible then
      ({ s with userLocationCircle := some { c with visible := false } },
       [Effect.circleSetVisible false])
    else (s, [])

/-- GoogleMap.prototype.centerMap: pans to the coordinate; a no-op while
the map is null. -/
def GoogleMap.centerMap (s : GoogleMap) (lat lng : Int) : GoogleMap × List Effect :=
  match s.map with
  | none => (s, [])
  | some m =>
    ({ s with map := some { m with center := ⟨lat, lng⟩ } }, [Effect.panTo ⟨lat, lng⟩])

/-- GoogleMap.prototype.zoomMap: sets the zoom level; a no-op while the map
is null. -/
def GoogleMap.zoomMap (s : GoogleMap) (zoom : Int) : GoogleMap × List Effect :=
  match s.map with
  | none => (s, [])
  | some m =>
    ({ s with map := some { m with zoom := zoom } }, [Effect.setZoom zoom])

/-- A thrown JS exception escaping a handler. -/
inductive JsError where
  | typeError
deriving DecidableEq

/-- Result of a fallible handler: final state, trace of effects emitted up
to the point of return or throw, and the escaping exception if any. -/
structure StepResult where
  state : GoogleMap
  trace : List Effect
  err : Option JsError
deriving DecidableEq

/-- GoogleMap.prototype.focusOnLocation: a no-op while the map is null;
otherwise evaluates getBounds().contains — which throws a TypeError when
getBounds() is undefined (map not yet laid out) — and zooms then pans when
the coordinate is outside the bounds or the zoom is below
minFocusedZoomLevel. -/
def GoogleMap.focusOnLocation (s : GoogleMap) (lat lng : Int) : StepResult :=
  match s.map with
  | none => ⟨s, [], none⟩
  | some m =>
    match m.bounds with
    | none => ⟨s, [], some JsError.typeError⟩
    | some b =>
      if !(b.contains ⟨lat, lng⟩) || decide (m.zoom < GoogleMap.minFocusedZoomLevel) then
        let (s1, t1) := s.zoomMap GoogleMap.focusedZoomLevel
        let (s2, t2) := s1.centerMap lat lng
        ⟨s2, t1 ++ t2, none⟩
      else ⟨s, [], none⟩

/-- GoogleMap.prototype.onGeolocationSuccess: invokes the success callback
(when configured), then focusOnLocation, setUserMarker and
setUserLocationCirclePosition in that order; an exception thrown by
focusOnLocation aborts the remaining visual updates. -/
def GoogleMap.onGeolocationSuccess (s : GoogleMap) (lat lng : Int) : StepResult :=
  let t0 := if s.hasSuccessCallback then [Effect.callbackSuccess lat lng] else []
  let f := s.focusOnLocation lat lng
  match f.err with
  | some e => ⟨f.state, t0 ++ f.trace, some e⟩
  | none =>
    let (s2, t2) := f.state.setUserMarker lat lng
    let (s3, t3) := s2.setUserLocationCirclePosition lat lng
    ⟨s3, t0 ++ f.trace ++ t2 ++ t3, none⟩

/-- GoogleMap.prototype.onGeolocationPermissionTimeout: forwards the
availability of a cached position to the host callback when configured. -/
def GoogleMap.onGeolocationPermissionTimeout (s : GoogleMap) : GoogleMap × List Effect :=
  if s.hasPermissionTimeoutCallback then
    (s, [Effect.callbackPermissionTimeout s.geolocator.isCurrentPositionAvailable])
  else (s, [])

/-- GoogleMap.prototype.onGeolocationRequest: clears the geolocator's
cached position, removes the user marker, hides the accuracy circle, then
invokes the request callback when configured. -/
def GoogleMap.onGeolocationRequest (s : GoogleMap) : GoogleMap × List Effect :=
  let s1 : GoogleMap := { s with geolocator := s.geolocator.clearCurrentPosition }
  let t1 := [Effect.geoClearCurrentPosition]
  let (s2, t2) := s1.removeUserPosition
  let (s3, t3) := s2.hideUserLocationCircle
  let t4 := if s.hasRequestCallback then [Effect.callbackRequest] else []
  (s3, t1 ++ t2 ++ t3 ++ t4)

/-- GoogleMap.prototype.onGeolocationError: forwards the error message to
the host callback when configured. -/
def GoogleMap.onGeolocationError (s : GoogleMap) (errorMessage : String) :
    GoogleMap × List Effect :=
  if s.hasErrorCallback then (s, [Effect.callbackError errorMessage]) else (s, [])

/-- A JS value passed to ToggleButton.selectState: the states compared by
the loose-equality chain in the source are booleans, numbers and strings.
Numeric-string coercion is modelled for the literal "1" tested by the
source expression. -/
inductive JsVal where
  | bool (b : Bool)
  | num (n : Int)
  | str (s : String)
deriving DecidableEq

/-- State of a ToggleButton widget instance. -/
structure ToggleButton where
  uri : String
  serverState : Int
  selectedState : Int
  parameterName : String
  httpMethod : String
  isRequestInProgress : Bool
deriving DecidableEq

/-- The conditional expression in ToggleButton.prototype.selectState:
state == true || state == 1 || state == "1" ? 1 : 0 under JS loose
equality. -/
def ToggleButton.normalizeState : JsVal → Int
  | .bool b => if b then 1 else 0
  | .num n => if n = 1 then 1 else 0
  | .str s => if s = "1" then 1 else 0

/-- Model of JS String.prototype.toUpperCase restricted to ASCII, used by
the POST check in sendRequest. -/
def jsUpperChar (c : Char) : Char :=
  if 97 ≤ c.toNat ∧ c.toNat ≤ 122 then Char.ofNat (c.toNat - 32) else c

/-- Model of JS String.prototype.toUpperCase. -/
def jsToUpperCase (s : String) : String :=
  String.mk (s.data.map jsUpperChar)

/-- An HTTP request handed to the transport by sendRequest: method, URL and
the optional form data carrying the submitted state. -/
structure AjaxRequest where
  methodName : String
  url : String
  data : Option (String × Int)
deriving DecidableEq

/-- ToggleButton.prototype.sendRequest: drops the call while a request is
in progress; otherwise builds the request (data set when the method is
POST, carrying selectedState under parameterName) and hands it to the
transport, whose synchronous beforeSend hook raises the in-flight flag. -/
def ToggleButton.sendRequest (t : ToggleButton) : ToggleButton × Option AjaxRequest :=
  if t.isRequestInProgress then (t, none)
  else
    let d : Option (String × Int) :=
      if jsToUpperCase t.httpMethod = "POST" then some (t.parameterName, t.selectedState)
      else none
    ({ t with isRequestInProgress := true },
     some { methodName := t.httpMethod, url := t.uri, data := d })

/-- The success handler of the request built by sendRequest: the selected
state now reflects the server-side state. -/
def ToggleButton.ajaxSuccess (t : ToggleButton) : ToggleButton :=
  { t with serverState := t.selectedState }

/-- The error handler of the request built by sendRequest: reverts the
selected state back to the server-side state. -/
def ToggleButton.ajaxError (t : ToggleButton) : ToggleButton :=
  { t with selectedState := t.serverState }

/-- The complete handler of the request built by sendRequest: lowers the
in-flight flag. -/
def ToggleButton.ajaxComplete (t : ToggleButton) : ToggleButton :=
  { t with isRequestInProgress := false }

/-- ToggleButton.prototype.selectState: normalizes and stores the selected
state, then calls sendRequest. -/
def ToggleButton.selectState (t : ToggleButton) (state : JsVal) :
    ToggleButton × Option AjaxRequest :=
  ToggleButton.sendRequest { t with selectedState := ToggleButton.normalizeState state }

/-- Hexadecimal digit used by the percent-encoder (uppercase, as produced
by encodeURIComponent). -/
def hexDigit (n : Nat) : Char :=
  if n < 10 then Char.ofNat (48 + n) else Char.ofNat (55 + n)

/-- Percent-encoding of one byte value. -/
def percentEncodeByte (b : Nat) : String :=
  String.mk ['%', hexDigit (b / 16), hexDigit (b % 16)]

/-- UTF-8 byte sequence of a code point. -/
def utf8Bytes (n : Nat) : List Nat :=
  if n < 128 then [n]
  else if n < 2048 then [192 + n / 64, 128 + n % 64]
  else if n < 65536 then [224 + n / 4096, 128 + (n / 64) % 64, 128 + n % 64]
  else [240 + n / 262144, 128 + (n / 4096) % 64, 128 + (n / 64) % 64, 128 + n % 64]

/-- Characters left unescaped by JS encodeURIComponent. -/
def isUnreservedChar (c : Char) : Bool :=
  c.isAlpha || c.isDigit ||
  ['-', '_', '.', '!', '~', '*', Char.ofNat 39, '(', ')'].contains c

/-- Model of the JS global encodeURIComponent. -/
def encodeURIComponent (s : String) : String :=
  s.data.foldl
    (fun acc c =>
      if isUnreservedChar c then acc.push c
      else acc ++ String.join ((utf8Bytes c.toNat).map percentEncodeByte))
    ""

/-- Modelled from the spec: the Collection container class is not under
src/.  It is a key/value store iterated in insertion order, modelled as an
association list. -/
abbrev Collection := List (String × String)

/-- Modelled from the spec: membership test of the Collection container. -/
def Collection.hasKey (c : Collection) (k : String) : Bool :=
  c.any (fun kv => kv.1 == k)

/-- Modelled from the spec: lookup in the Collection container (first
matching key). -/
def Collection.get (c : Collection) (k : String) : String :=
  match c.find? (fun kv => kv.1 == k) with
  | some kv => kv.2
  | none => ""

/-- State of an HttpQueryStringBuilder instance. -/
structure HttpQueryStringBuilder where
  page : Int
  queryParameters : Collection
deriving DecidableEq

/-- The for-in loop of HttpQueryStringBuilder.prototype.buildQueryString:
iterates the stored parameters, skipping keys that fail hasKey, choosing
"?" for the first appended pair when page < 1 and "&" otherwise, and
percent-encoding key and looked-up value. -/
def HttpQueryStringBuilder.buildParamsLoop (b : HttpQueryStringBuilder) :
    List (String × String) → String → Nat → String
  | [], queryString, _ => queryString
  | kv :: rest, queryString, i =>
    if b.queryParameters.hasKey kv.1 then
      b.buildParamsLoop rest
        (queryString ++ (if i == 0 && decide (b.page < 1) then "?" else "&")
          ++ encodeURIComponent kv.1 ++ "="
          ++ encodeURIComponent (b.queryParameters.get kv.1))
        (i + 1)
    else b.buildParamsLoop rest queryString i

/-- HttpQueryStringBuilder.prototype.buildQueryString: starts from
"?page=N" when page > 0 (empty otherwise) and appends the stored
parameters via the loop. -/
def HttpQueryStringBuilder.buildQueryString (b : HttpQueryStringBuilder) : String :=
  b.buildParamsLoop b.queryParameters
    (if b.page > 0 then "?page=" ++ toString b.page else "") 0

/-- The query string as the spec describes it: pieces indexed from i, the
first prefixed "?" when the page parameter was omitted (page ≤ 0) and "&"
otherwise, later pieces prefixed "&", each pair percent-encoded. -/
def HttpQueryStringBuilder.specParams (pg : Int) :
    Nat → List (String × String) → String
  | _, [] => ""
  | i, kv :: rest =>
    ((if i = 0 ∧ pg ≤ 0 then "?" else "&") ++ encodeURIComponent kv.1 ++ "="
      ++ encodeURIComponent kv.2) ++ HttpQueryStringBuilder.specParams pg (i + 1) rest

/-- The whole query string as the spec describes it: the page parameter
exactly when page > 0, then every stored pair. -/
def HttpQueryStringBuilder.specQueryString (b : HttpQueryStringBuilder) : String :=
  (if b.page > 0 then "?page=" ++ toString b.page else "")
    ++ HttpQueryStringBuilder.specParams b.page 0 b.queryParameters

/-- Example bounds used by concrete instances. -/
def exBounds : LatLngBounds := { south := -10, west := -10, north := 10, east := 10 }

/-- A laid-out rendering surface zoomed far out. -/
def exSurface : MapSurface := { bounds := some exBounds, zoom := 2, center := { lat := 0, lng := 0 } }

/-- A hidden accuracy circle. -/
def exCircle : MapCircle := { visible := false, center := none }

/-- A fully initialized widget with all host callbacks configured. -/
def exWidget : GoogleMap :=
  { map := some exSurface, userMarker := none, userLocationCircle := some exCircle,
    geolocator := { currentPosition := none }, hasRequestCallback := true,
    hasPermissionTimeoutCallback := true, hasSuccessCallback := true,
    hasErrorCallback := true }

/-- The widget with a map that has not been laid out yet. -/
def exNoBoundsWidget : GoogleMap :=
  { exWidget with map := some { bounds := none, zoom := 2, center := { lat := 0, lng := 0 } } }

/-- The widget before initializeMap. -/
def exUninitWidget : GoogleMap := { exWidget with map := none }

/-- The widget with a cached geolocator position. -/
def exCachedWidget : GoogleMap :=
  { exWidget with geolocator := { currentPosition := some { lat := 3, lng := 4 } } }

/-- C3: if the rendering surface cannot report its bounds (map initialized
but not yet laid out), focusOnLocation evaluates getBounds().contains on an
undefined receiver and throws a TypeError, issuing no recenter-and-zoom —
against the specified graceful RecenterAndZoom fallback. -/
theorem GoogleMap.focusThrowsWithoutBounds :
    GoogleMap.focusOnLocation exNoBoundsWidget 40 (-74) =
      { state := exNoBoundsWidget, trace := [], err := some JsError.typeError } := rfl

/-- C4: the error handler and the permission-timeout handler leave the
whole widget state — marker, circle, camera and cached coordinate —
unchanged, and every effect they emit is a host-callback invocation. -/
theorem GoogleMap.errorAndTimeoutFrame (s : GoogleMap) (msg : String) :
    (GoogleMap.onGeolocationError s msg).1 = s ∧
    (∀ e ∈ (GoogleMap.onGeolocationError s msg).2, e.isCallback = true) ∧
    (GoogleMap.onGeolocationPermissionTimeout s).1 = s ∧
    (∀ e ∈ (GoogleMap.onGeolocationPermissionTimeout s).2, e.isCallback = true) := by
  unfold GoogleMap.onGeolocationError GoogleMap.onGeolocationPermissionTimeout
  refine ⟨?_, ?_, ?_, ?_⟩ <;> split <;> simp [Effect.isCallback]

/-- C6: setUserMarker, centerMap, zoomMap and focusOnLocation invoked while
the map is null return the state unchanged, emit no effect and throw no
exception. -/
theorem GoogleMap.positioningNoOpBeforeInit (s : GoogleMap) (lat lng z : Int)
    (h : s.map = none) :
    s.setUserMarker lat lng = (s, []) ∧
    s.centerMap lat lng = (s, []) ∧
    s.zoomMap z = (s, []) ∧
    s.focusOnLocation lat lng = { state := s, trace := [], err := none } := by
  unfold GoogleMap.setUserMarker GoogleMap.centerMap GoogleMap.zoomMap
    GoogleMap.focusOnLocation
  simp [h]

/-- Witness for C6 at a concrete uninitialized widget. -/
theorem GoogleMap.positioningNoOpBeforeInitWitness :
    exUninitWidget.setUserMarker 1 2 = (exUninitWidget, []) ∧
    exUninitWidget.centerMap 1 2 = (exUninitWidget, []) ∧
    exUninitWidget.zoomMap 15 = (exUninitWidget, []) ∧
    exUninitWidget.focusOnLocation 1 2 =
      { state := exUninitWidget, trace := [], err := none } :=
  GoogleMap.positioningNoOpBeforeInit exUninitWidget 1 2 15 rfl

/-- C7: when the permission-timeout callback is configured, the handler
emits exactly one notification whose boolean argument is the geolocator's
availability report, true exactly when a cached coordinate exists. -/
theorem GoogleMap.timeoutCarriesAvailability (s : GoogleMap)
    (h : s.hasPermissionTimeoutCallback = true) :
    (GoogleMap.onGeolocationPermissionTimeout s).2 =
      [Effect.callbackPermissionTimeout s.geolocator.isCurrentPositionAvailable] ∧
    (s.geolocator.isCurrentPositionAvailable = true ↔
      ∃ p, s.geolocator.currentPosition = some p) := by
  unfold GoogleMap.onGeolocationPermissionTimeout
  simp [h, Geolocator.isCurrentPositionAvailable, Option.isSome_iff_exists]

/-- Witness for C7 at a widget holding a cached coordinate. -/
theorem GoogleMap.timeoutCarriesAvailabilityWitness :
    (GoogleMap.onGeolocationPermissionTimeout exCachedWidget).2 =
      [Effect.callbackPermissionTimeout
        exCachedWidget.geolocator.isCurrentPositionAvailable] ∧
    (exCachedWidget.geolocator.isCurrentPositionAvailable = true ↔
      ∃ p, exCachedWidget.geolocator.currentPosition = some p) :=
  GoogleMap.timeoutCarriesAvailability exCachedWidget rfl

/-- C2: counterexample — on a successful geolocation event the facade
forwards the success notification to the host callback as its very first
action, and visual updates follow it, so the notification is not sent only
after the visual updates. -/
theorem GoogleMap.successCallbackNotAfterVisuals :
    (GoogleMap.onGeolocationSuccess exWidget 1 2).trace.head? =
      some (Effect.callbackSuccess 1 2) ∧
    ((GoogleMap.onGeolocationSuccess exWidget 1 2).trace.drop 1).any
        Effect.isVisual = true := by
  decide

/-- Helper: focusOnLocation on an initialized, laid-out map either zooms to
focusedZoomLevel and pans (when the coordinate is outside the bounds or the
zoom is below minFocusedZoomLevel) or does nothing. -/
theorem GoogleMap.focusOnLocation_of_bounds (s : GoogleMap) (lat lng : Int)
    (m : MapSurface) (b : LatLngBounds) (hm : s.map = some m) (hb : m.bounds = some b) :
    s.focusOnLocation lat lng =
      if !(b.contains ⟨lat, lng⟩) || decide (m.zoom < GoogleMap.minFocusedZoomLevel) then
        ⟨{ s with map := (some
             (MapSurface.mk m.bounds GoogleMap.focusedZoomLevel ⟨lat, lng⟩)) },
         [Effect.setZoom GoogleMap.focusedZoomLevel, Effect.panTo ⟨lat, lng⟩], none⟩
      else ⟨s, [], none⟩ := by
  unfold GoogleMap.focusOnLocation GoogleMap.zoomMap GoogleMap.centerMap
  simp only [hm, hb]
  split <;> simp [hm]

/-- Helper: setUserMarker on an initialized map always leaves the single
user marker attached at the coordinate and emits the attach, animation and
position effects. -/
theorem GoogleMap.setUserMarker_of_some (s : GoogleMap) (lat lng : Int)
    (h : s.map.isSome = true) :
    s.setUserMarker lat lng =
      ({ s with userMarker := (some { attached := true, position := some ⟨lat, lng⟩ }) },
       [Effect.markerSetMap true, Effect.markerSetAnimation,
        Effect.markerSetPosition ⟨lat, lng⟩]) := by
  unfold GoogleMap.setUserMarker
  rcases hmm : s.map with _ | mm
  · rw [hmm] at h; cases h
  · cases hu : s.userMarker <;> simp [hmm, hu]

/-- Helper: setUserLocationCirclePosition leaves an initialized circle
visible and centered at the coordinate and emits only circle effects. -/
theorem GoogleMap.setUserLocationCirclePosition_spec (s : GoogleMap) (lat lng : Int) :
    s.setUserLocationCirclePosition lat lng =
      ({ s with userLocationCircle :=
          (s.userLocationCircle.map (fun _ => { visible := true, center := some ⟨lat, lng⟩ })) },
       match s.userLocationCircle with
       | none => []
       | some c =>
         (if !c.visible then [Effect.circleSetVisible true] else [])
           ++ [Effect.circleSetCenter ⟨lat, lng⟩]) := by
  unfold GoogleMap.setUserLocationCirclePosition
  rcases hcc : s.userLocationCircle with _ | ⟨cv, cctr⟩
  · simp only [hcc, Option.map_none']
    rw [← hcc]
  · cases cv <;> simp [hcc]

/-- Helper: full characterization of the success handler on an initialized,
laid-out map: no exception, the trace is the callback notification followed
by the focus, marker and circle effects, the marker ends attached at the
coordinate and an initialized circle ends visible and centered there. -/
theorem GoogleMap.onGeolocationSuccess_spec (s : GoogleMap) (lat lng : Int)
    (m : MapSurface) (b : LatLngBounds) (hm : s.map = some m) (hb : m.bounds = some b) :
    (GoogleMap.onGeolocationSuccess s lat lng).err = none ∧
    (GoogleMap.onGeolocationSuccess s lat lng).trace =
      (if s.hasSuccessCallback then [Effect.callbackSuccess lat lng] else [])
        ++ (if !(b.contains ⟨lat, lng⟩) || decide (m.zoom < GoogleMap.minFocusedZoomLevel)
            then [Effect.setZoom GoogleMap.focusedZoomLevel, Effect.panTo ⟨lat, lng⟩]
            else [])
        ++ [Effect.markerSetMap true, Effect.markerSetAnimation,
            Effect.markerSetPosition ⟨lat, lng⟩]
        ++ (match s.userLocationCircle with
            | none => []
            | some c =>
              (if !c.visible then [Effect.circleSetVisible true] else [])
                ++ [Effect.circleSetCenter ⟨lat, lng⟩]) ∧
    (GoogleMap.onGeolocationSuccess s lat lng).state.userMarker =
      some { attached := true, position := some ⟨lat, lng⟩ } ∧
    (GoogleMap.onGeolocationSuccess s lat lng).state.userLocationCircle =
      s.userLocationCircle.map (fun _ => { visible := true, center := some ⟨lat, lng⟩ }) := by
  have hf := GoogleMap.focusOnLocation_of_bounds s lat lng m b hm hb
  unfold GoogleMap.onGeolocationSuccess
  rw [hf]
  by_cases hC :
      (!(b.contains ⟨lat, lng⟩) || decide (m.zoom < GoogleMap.minFocusedZoomLevel)) = true
  · rw [if_pos hC, if_pos hC]
    dsimp only
    rw [GoogleMap.setUserMarker_of_some]
    · dsimp only
      rw [GoogleMap.setUserLocationCirclePosition_spec]
      dsimp only
      exact ⟨rfl, rfl, rfl, rfl⟩
    · rfl
  · rw [if_neg hC, if_neg hC]
    dsimp only
    rw [GoogleMap.setUserMarker_of_some]
    · dsimp only
      rw [GoogleMap.setUserLocationCirclePosition_spec]
      dsimp only
      exact ⟨rfl, rfl, rfl, rfl⟩
    · rw [hm]; rfl

/-- C1: on the success path of an initialized, laid-out map, pan and zoom
actions are issued exactly when the coordinate lies outside the current
bounds or the current zoom is strictly below minFocusedZoomLevel, and in
that case they are exactly a zoom to focusedZoomLevel and a pan to the
coordinate; otherwise the success path issues no pan or zoom action. -/
theorem GoogleMap.focusActionIff (s : GoogleMap) (lat lng : Int)
    (m : MapSurface) (b : LatLngBounds) (hm : s.map = some m) (hb : m.bounds = some b) :
    (GoogleMap.onGeolocationSuccess s lat lng).err = none ∧
    (GoogleMap.onGeolocationSuccess s lat lng).trace.filter Effect.isPanZoom =
      (if b.contains ⟨lat, lng⟩ = false ∨ m.zoom < GoogleMap.minFocusedZoomLevel then
        [Effect.setZoom GoogleMap.focusedZoomLevel, Effect.panTo ⟨lat, lng⟩]
      else []) := by
  obtain ⟨herr, htr, hmk, hcir⟩ := GoogleMap.onGeolocationSuccess_spec s lat lng m b hm hb
  refine ⟨herr, ?_⟩
  rw [htr, List.filter_append, List.filter_append, List.filter_append]
  cases hscb : s.hasSuccessCallback <;>
    cases hbc : b.contains ⟨lat, lng⟩ <;>
    by_cases hz : m.zoom < GoogleMap.minFocusedZoomLevel <;>
    rcases hcc : s.userLocationCircle with _ | ⟨cv, cctr⟩ <;>
    first
      | (cases cv <;> simp [hz, Effect.isPanZoom])
      | simp [hz, Effect.isPanZoom]

/-- Witness for C1 at a concrete zoomed-out widget, where the coordinate is
inside the bounds but the zoom is below the focused minimum. -/
theorem GoogleMap.focusActionIffWitness :
    (GoogleMap.onGeolocationSuccess exWidget 1 2).err = none ∧
    (GoogleMap.onGeolocationSuccess exWidget 1 2).trace.filter Effect.isPanZoom =
      (if exBounds.contains ⟨1, 2⟩ = false ∨ exSurface.zoom < GoogleMap.minFocusedZoomLevel
       then [Effect.setZoom GoogleMap.focusedZoomLevel, Effect.panTo ⟨1, 2⟩]
       else []) :=
  GoogleMap.focusActionIff exWidget 1 2 exSurface exBounds rfl rfl

/-- C2 (amended): on a successful geolocation event with the map
initialized and laid out and the success callback configured, the facade
forwards the success notification carrying the coordinate to the host page
FIRST, every later effect is a visual update and not a callback, and the
handler then leaves the user marker attached at the coordinate and an
initialized accuracy circle visible and centered there. -/
theorem GoogleMap.successNotificationFirst (s : GoogleMap) (lat lng : Int)
    (m : MapSurface) (b : LatLngBounds) (hm : s.map = some m) (hb : m.bounds = some b)
    (hscb : s.hasSuccessCallback = true) :
    (GoogleMap.onGeolocationSuccess s lat lng).err = none ∧
    (GoogleMap.onGeolocationSuccess s lat lng).trace.head? =
      some (Effect.callbackSuccess lat lng) ∧
    (∀ e ∈ (GoogleMap.onGeolocationSuccess s lat lng).trace.drop 1,
      e.isCallback = false) ∧
    (GoogleMap.onGeolocationSuccess s lat lng).state.userMarker =
      some { attached := true, position := some ⟨lat, lng⟩ } ∧
    (GoogleMap.onGeolocationSuccess s lat lng).state.userLocationCircle =
      s.userLocationCircle.map (fun _ => { visible := true, center := some ⟨lat, lng⟩ }) := by
  obtain ⟨herr, htr, hmk, hcir⟩ := GoogleMap.onGeolocationSuccess_spec s lat lng m b hm hb
  refine ⟨herr, ?_, ?_, hmk, hcir⟩ <;> rw [htr, hscb]
  · rfl
  · by_cases hC :
        (!(b.contains ⟨lat, lng⟩) || decide (m.zoom < GoogleMap.minFocusedZoomLevel)) = true <;>
      rcases hcc : s.userLocationCircle with _ | ⟨cv, cctr⟩ <;>
      first
        | (cases cv <;> simp [hC, Effect.isCallback])
        | simp [hC, Effect.isCallback]

/-- Witness for C2 (amended) at a concrete zoomed-out widget. -/
theorem GoogleMap.successNotificationFirstWitness :
    (GoogleMap.onGeolocationSuccess exWidget 1 2).err = none ∧
    (GoogleMap.onGeolocationSuccess exWidget 1 2).trace.head? =
      some (Effect.callbackSuccess 1 2) ∧
    (∀ e ∈ (GoogleMap.onGeolocationSuccess exWidget 1 2).trace.drop 1,
      e.isCallback = false) ∧
    (GoogleMap.onGeolocationSuccess exWidget 1 2).state.userMarker =
      some { attached := true, position := some ⟨1, 2⟩ } ∧
    (GoogleMap.onGeolocationSuccess exWidget 1 2).state.userLocationCircle =
      exWidget.userLocationCircle.map
        (fun _ => { visible := true, center := some ⟨1, 2⟩ }) :=
  GoogleMap.successNotificationFirst exWidget 1 2 exSurface exBounds rfl rfl rfl

/-- A widget showing stale visuals: marker attached, circle visible, cached
geolocator position. -/
def exDirtyWidget : GoogleMap :=
  { exWidget with
    userMarker := (some { attached := true, position := some ⟨3, 4⟩ }),
    userLocationCircle := (some { visible := true, center := some ⟨3, 4⟩ }),
    geolocator := { currentPosition := some ⟨3, 4⟩ } }

/-- C5: the request handler clears the geolocator's cached position,
detaches the user marker and hides the accuracy circle; with the
request-started callback configured, that callback is the last effect and
everything before it is non-callback clearing work, among it the cache
clear. -/
theorem GoogleMap.requestClearsBeforeCallback (s : GoogleMap)
    (hrc : s.hasRequestCallback = true) :
    (GoogleMap.onGeolocationRequest s).1.geolocator.currentPosition = none ∧
    (GoogleMap.onGeolocationRequest s).1.userMarker =
      s.userMarker.map (fun mrk => { mrk with attached := false }) ∧
    (GoogleMap.onGeolocationRequest s).1.userLocationCircle =
      s.userLocationCircle.map (fun c => { c with visible := false }) ∧
    (GoogleMap.onGeolocationRequest s).2.getLast? = some Effect.callbackRequest ∧
    (∀ e ∈ (GoogleMap.onGeolocationRequest s).2.dropLast, e.isCallback = false) ∧
    Effect.geoClearCurrentPosition ∈ (GoogleMap.onGeolocationRequest s).2.dropLast := by
  unfold GoogleMap.onGeolocationRequest GoogleMap.removeUserPosition
    GoogleMap.hideUserLocationCircle Geolocator.clearCurrentPosition
  rcases hu : s.userMarker with _ | ⟨ma, mp⟩ <;>
    rcases hcc : s.userLocationCircle with _ | ⟨cv, cctr⟩ <;>
    first
      | (cases cv <;> simp [hrc, hu, hcc, Effect.isCallback])
      | simp [hrc, hu, hcc, Effect.isCallback]

/-- Witness for C5 at a widget with stale visuals and a cached position. -/
theorem GoogleMap.requestClearsBeforeCallbackWitness :
    (GoogleMap.onGeolocationRequest exDirtyWidget).1.geolocator.currentPosition = none ∧
    (GoogleMap.onGeolocationRequest exDirtyWidget).1.userMarker =
      exDirtyWidget.userMarker.map (fun mrk => { mrk with attached := false }) ∧
    (GoogleMap.onGeolocationRequest exDirtyWidget).1.userLocationCircle =
      exDirtyWidget.userLocationCircle.map (fun c => { c with visible := false }) ∧
    (GoogleMap.onGeolocationRequest exDirtyWidget).2.getLast? =
      some Effect.callbackRequest ∧
    (∀ e ∈ (GoogleMap.onGeolocationRequest exDirtyWidget).2.dropLast,
      e.isCallback = false) ∧
    Effect.geoClearCurrentPosition ∈ (GoogleMap.onGeolocationRequest exDirtyWidget).2.dropLast :=
  GoogleMap.requestClearsBeforeCallback exDirtyWidget rfl

/-- A concrete toggle bound to a POST endpoint, idle, in server state 0. -/
def exToggle : ToggleButton :=
  { uri := "/toggle", serverState := 0, selectedState := 0, parameterName := "state",
    httpMethod := "POST", isRequestInProgress := false }

/-- C8: selectState sets the local selected state optimistically and never
touches serverState; while a request is outstanding the duplicate
submission is dropped (no request issued); when idle exactly one request
carrying the normalized state is issued, and if that request fails the
error and complete handlers revert selectedState to the last
server-confirmed serverState and lower the in-flight flag. -/
theorem ToggleButton.selectStateSpec (t : ToggleButton) (v : JsVal)
    (hP : t.httpMethod = "POST") :
    (t.selectState v).1.selectedState = ToggleButton.normalizeState v ∧
    (t.selectState v).1.serverState = t.serverState ∧
    (t.isRequestInProgress = true → (t.selectState v).2 = none) ∧
    (t.isRequestInProgress = false →
      (t.selectState v).2 =
        some { methodName := t.httpMethod, url := t.uri,
               data := some (t.parameterName, ToggleButton.normalizeState v) } ∧
      (t.selectState v).1.isRequestInProgress = true ∧
      ((t.selectState v).1.ajaxError.ajaxComplete).selectedState = t.serverState ∧
      ((t.selectState v).1.ajaxError.ajaxComplete).isRequestInProgress = false) := by
  have hup : jsToUpperCase "POST" = "POST" := by decide
  unfold ToggleButton.selectState ToggleButton.sendRequest ToggleButton.ajaxError
    ToggleButton.ajaxComplete
  cases hip : t.isRequestInProgress <;> simp [hip, hP, hup]

/-- Witness for C8 at the concrete idle toggle. -/
theorem ToggleButton.selectStateSpecWitness :
    (exToggle.selectState (JsVal.num 1)).1.selectedState =
      ToggleButton.normalizeState (JsVal.num 1) ∧
    (exToggle.selectState (JsVal.num 1)).1.serverState = exToggle.serverState ∧
    (exToggle.isRequestInProgress = true →
      (exToggle.selectState (JsVal.num 1)).2 = none) ∧
    (exToggle.isRequestInProgress = false →
      (exToggle.selectState (JsVal.num 1)).2 =
        some { methodName := exToggle.httpMethod, url := exToggle.uri,
               data := some (exToggle.parameterName, ToggleButton.normalizeState (JsVal.num 1)) } ∧
      (exToggle.selectState (JsVal.num 1)).1.isRequestInProgress = true ∧
      ((exToggle.selectState (JsVal.num 1)).1.ajaxError.ajaxComplete).selectedState =
        exToggle.serverState ∧
      ((exToggle.selectState (JsVal.num 1)).1.ajaxError.ajaxComplete).isRequestInProgress =
        false) :=
  ToggleButton.selectStateSpec exToggle (JsVal.num 1) rfl

/-- C10: calling selectState while a request is outstanding issues no
second request but still overwrites selectedState with the normalized
value (1 for true, 1 and "1"; otherwise 0), and the success handler of the
outstanding request then confirms this newer selectedState as serverState. -/
theorem ToggleButton.selectStateWhileInFlight (t : ToggleButton) (v : JsVal)
    (h : t.isRequestInProgress = true) :
    (t.selectState v).2 = none ∧
    (t.selectState v).1.selectedState = ToggleButton.normalizeState v ∧
    ((t.selectState v).1.ajaxSuccess).serverState = ToggleButton.normalizeState v ∧
    (((t.selectState v).1.ajaxSuccess).ajaxComplete).serverState =
      ToggleButton.normalizeState v ∧
    ToggleButton.normalizeState (JsVal.bool true) = 1 ∧
    ToggleButton.normalizeState (JsVal.num 1) = 1 ∧
    ToggleButton.normalizeState (JsVal.str "1") = 1 ∧
    ToggleButton.normalizeState (JsVal.bool false) = 0 ∧
    ToggleButton.normalizeState (JsVal.num 0) = 0 ∧
    ToggleButton.normalizeState (JsVal.str "0") = 0 := by
  unfold ToggleButton.selectState ToggleButton.sendRequest ToggleButton.ajaxSuccess
    ToggleButton.ajaxComplete
  refine ⟨?_, ?_, ?_, ?_, by decide, by decide, by decide, by decide, by decide, by decide⟩ <;>
    simp [h]

/-- Witness for C10: a first call submits state 1; a second call during the
flight issues nothing, and the pending success would confirm 0 — not the
submitted 1. -/
theorem ToggleButton.selectStateWhileInFlightWitness :
    (exToggle.selectState (JsVal.num 1)).2 =
      some { methodName := "POST", url := "/toggle", data := some ("state", 1) } ∧
    ((((exToggle.selectState (JsVal.num 1)).1.selectState (JsVal.num 0)).2 = none ∧
      ((exToggle.selectState (JsVal.num 1)).1.selectState (JsVal.num 0)).1.selectedState =
        ToggleButton.normalizeState (JsVal.num 0) ∧
      (((exToggle.selectState (JsVal.num 1)).1.selectState (JsVal.num 0)).1.ajaxSuccess).serverState =
        ToggleButton.normalizeState (JsVal.num 0) ∧
      ((((exToggle.selectState (JsVal.num 1)).1.selectState (JsVal.num 0)).1.ajaxSuccess).ajaxComplete).serverState =
        ToggleButton.normalizeState (JsVal.num 0) ∧
      ToggleButton.normalizeState (JsVal.bool true) = 1 ∧
      ToggleButton.normalizeState (JsVal.num 1) = 1 ∧
      ToggleButton.normalizeState (JsVal.str "1") = 1 ∧
      ToggleButton.normalizeState (JsVal.bool false) = 0 ∧
      ToggleButton.normalizeState (JsVal.num 0) = 0 ∧
      ToggleButton.normalizeState (JsVal.str "0") = 0)) :=
  ⟨rfl, ToggleButton.selectStateWhileInFlight
    ((exToggle.selectState (JsVal.num 1)).1) (JsVal.num 0) rfl⟩

/-- Helper: a stored pair's key passes the hasKey check. -/
theorem Collection.hasKey_of_mem (c : Collection) (kv : String × String)
    (h : kv ∈ c) : c.hasKey kv.1 = true := by
  unfold Collection.hasKey
  exact List.any_eq_true.mpr ⟨kv, h, by simp⟩

/-- Helper: with pairwise-distinct keys, the lookup of a stored pair's key
finds exactly that pair. -/
theorem Collection.find_eq_of_mem_nodup (c : Collection) (kv : String × String)
    (hnd : (c.map Prod.fst).Nodup) (h : kv ∈ c) :
    c.find? (fun q => q.1 == kv.1) = some kv := by
  induction c with
  | nil => cases h
  | cons a rest ih =>
    rw [List.map_cons, List.nodup_cons] at hnd
    rcases List.mem_cons.mp h with heq | hmem
    · subst heq
      simp [List.find?]
    · have hne : (a.1 == kv.1) = false := by
        rw [beq_eq_false_iff_ne]
        intro he
        exact hnd.1 (he ▸ List.mem_map.mpr ⟨kv, hmem, rfl⟩)
      rw [List.find?]
      rw [hne]
      exact ih hnd.2 hmem

/-- Helper: with pairwise-distinct keys, get returns the stored value. -/
theorem Collection.get_of_mem_nodup (c : Collection) (kv : String × String)
    (hnd : (c.map Prod.fst).Nodup) (h : kv ∈ c) :
    c.get kv.1 = kv.2 := by
  unfold Collection.get
  rw [Collection.find_eq_of_mem_nodup c kv hnd h]

/-- Helper: the source's separator choice (i == 0 && page < 1) matches the
spec's description (first pair and page parameter omitted). -/
theorem sepChoiceEq (i : Nat) (pg : Int) :
    (if i == 0 && decide (pg < 1) then "?" else "&")
      = (if i = 0 ∧ pg ≤ 0 then "?" else "&") := by
  by_cases h1 : i = 0 <;> by_cases h2 : pg ≤ 0 <;>
    simp [h1, h2] <;> omega

/-- Helper: the parameter loop of buildQueryString appends exactly the
spec-side pieces when every iterated pair is stored under a distinct key. -/
theorem HttpQueryStringBuilder.buildParamsLoop_spec (b : HttpQueryStringBuilder)
    (hnd : (b.queryParameters.map Prod.fst).Nodup) :
    ∀ (l : List (String × String)), (∀ kv ∈ l, kv ∈ b.queryParameters) →
      ∀ (acc : String) (i : Nat),
        b.buildParamsLoop l acc i = acc ++ HttpQueryStringBuilder.specParams b.page i l := by
  intro l
  induction l with
  | nil =>
    intro hsub acc i
    unfold HttpQueryStringBuilder.buildParamsLoop HttpQueryStringBuilder.specParams
    rw [String.append_empty]
  | cons kv rest ih =>
    intro hsub acc i
    have hmem : kv ∈ b.queryParameters := hsub kv (List.mem_cons_self kv rest)
    have hk := Collection.hasKey_of_mem b.queryParameters kv hmem
    have hg := Collection.get_of_mem_nodup b.queryParameters kv hnd hmem
    unfold HttpQueryStringBuilder.buildParamsLoop HttpQueryStringBuilder.specParams
    rw [if_pos hk, hg, ih (fun q hq => hsub q (List.mem_cons_of_mem kv hq))]
    rw [sepChoiceEq]
    simp [String.append_assoc]

/-- C9: buildQueryString produces exactly the spec-described string — the
page parameter exactly when page > 0, then every stored parameter as
percent-encoded key=value, the first prefixed "?" when the page parameter
was omitted and "&" otherwise, later ones prefixed "&" — provided the
stored keys are pairwise distinct. -/
theorem HttpQueryStringBuilder.buildQueryStringSpec (b : HttpQueryStringBuilder)
    (hnd : (b.queryParameters.map Prod.fst).Nodup) :
    b.buildQueryString = b.specQueryString := by
  unfold HttpQueryStringBuilder.buildQueryString HttpQueryStringBuilder.specQueryString
  exact HttpQueryStringBuilder.buildParamsLoop_spec b hnd b.queryParameters
    (fun kv h => h) _ 0

/-- A concrete builder on page 2 with two parameters needing escaping. -/
def exBuilder : HttpQueryStringBuilder :=
  { page := 2, queryParameters := [("a b", "c&d"), ("x", "y")] }

/-- Witness for C9 at the concrete builder, with the output evaluated. -/
theorem HttpQueryStringBuilder.buildQueryStringSpecWitness :
    exBuilder.buildQueryString = "?page=2&a%20b=c%26d&x=y" ∧
    exBuilder.buildQueryString = exBuilder.specQueryString :=
  ⟨by decide, HttpQueryStringBuilder.buildQueryStringSpec exBuilder (by decide)⟩
